/-
Verification of the `oggm_edu` convenience layer driven by the
oggm-edu-notebooks repository.

The repository consists of Jupyter notebooks that call the small
`oggm_edu` teaching API (`GlacierBed`, `MassBalance`, `Glacier`,
`GlacierCollection`, `SurgingGlacier`).  The implementation of that API is
not part of the supplied sources, so the definitions below are shallow
models written from the specification and from the behaviour the
notebooks themselves document; each such definition carries a doc comment
starting with `Modelled from the spec:`.  The exception-handling cells of
the water-resources notebooks are present verbatim in the sources and are
embedded directly.

All physical quantities are modelled over `ℚ`, years over `ℕ`.  The
external numerical solver (the OGGM flowline model) is represented by an
explicit step function passed as a parameter.
-/
import Mathlib

namespace OggmEdu

/-! ### Mass balance -/

/-- Modelled from the spec: `MassBalance` "evaluates a linear (or
piecewise-linear) elevation-dependent accumulation/ablation function".
`gradAt gs bps z` selects the mass-balance gradient that applies at
altitude `z`: breakpoints `bps` are given from the highest down, and the
first gradient applies above the first breakpoint. -/
def gradAt : List ℚ → List ℚ → ℚ → ℚ
  | [], _, _ => 0
  | g :: _, [], _ => g
  | g :: gs, b :: bs, z => if b ≤ z then g else gradAt gs bs z

/-- Modelled from the spec: the continuous piecewise-linear profile whose
slope at altitude `z` is `gradAt gs bps z`.  The pieces are glued
continuously at each breakpoint. -/
def mbProfile : List ℚ → List ℚ → ℚ → ℚ
  | [], _, _ => 0
  | g :: _, [], z => g * z
  | g :: gs, b :: bs, z =>
      if b ≤ z then mbProfile gs bs b + g * (z - b) else mbProfile gs bs z

/-- Modelled from the spec: the `MassBalance(ela, gradient, breakpoints)`
function object.  `gradients` has one more entry than `breakpoints`;
a single gradient with no breakpoints is the linear case. -/
structure MassBalance where
  ela : ℚ
  gradients : List ℚ
  breakpoints : List ℚ
deriving DecidableEq

/-- Modelled from the spec: evaluating the mass balance at altitude `z`;
the piecewise-linear profile is anchored so that it is zero at the ELA. -/
def MassBalance.eval (mb : MassBalance) (z : ℚ) : ℚ :=
  mbProfile mb.gradients mb.breakpoints z - mbProfile mb.gradients mb.breakpoints mb.ela

/-- Two altitudes lie in the same linear piece of the profile when they
fall on the same side of every breakpoint. -/
def SameSegment (bps : List ℚ) (z z' : ℚ) : Prop :=
  ∀ b ∈ bps, (b ≤ z ↔ b ≤ z')

instance (bps : List ℚ) (z z' : ℚ) : Decidable (SameSegment bps z z') := by
  unfold SameSegment; infer_instance

theorem mbProfile_sub_of_sameSegment (gs bps : List ℚ) (z z' : ℚ)
    (h : SameSegment bps z z') :
    mbProfile gs bps z - mbProfile gs bps z' = gradAt gs bps z * (z - z') := by
  induction gs generalizing bps with
  | nil => simp [mbProfile, gradAt]
  | cons g gs ih =>
    cases bps with
    | nil => simp [mbProfile, gradAt]; ring
    | cons b bs =>
      have hb : b ≤ z ↔ b ≤ z' := h b (by simp)
      by_cases hz : b ≤ z
      · have hz' : b ≤ z' := hb.mp hz
        simp only [mbProfile, gradAt, if_pos hz, if_pos hz']
        ring
      · have hz' : ¬ b ≤ z' := fun hc => hz (hb.mpr hc)
        simp only [mbProfile, gradAt, if_neg hz, if_neg hz']
        exact ih bs (fun c hc => h c (by simp [hc]))

/-! ### Glacier bed -/

/-- Modelled from the spec: `GlacierBed` "describes valley geometry
(altitude/width profile); a data holder, not a simulation". -/
structure GlacierBed where
  altitudes : List ℚ
  widths : List ℚ
  slopes : List ℚ
  mapDx : ℚ
deriving DecidableEq

/-- Modelled from the spec: the `GlacierBed(top, bottom, width, slopes,
altitudes, widths, map_dx)` constructor.  It accepts either `top`,
`bottom` and a constant `width` together with `slopes`, or explicit
`altitudes` and `widths` lists of equal length; any other combination of
arguments is rejected. -/
def mkGlacierBed (top bottom width : Option ℚ) (slopes : List ℚ)
    (altitudes widths : Option (List ℚ)) (mapDx : ℚ) :
    Except String GlacierBed :=
  match top, bottom, width, altitudes, widths with
  | some t, some b, some w, none, none =>
      if b < t then .ok ⟨[t, b], [w, w], slopes, mapDx⟩
      else .error "top must lie above bottom"
  | none, none, none, some alts, some ws =>
      if alts.length = ws.length ∧ 2 ≤ alts.length then
        .ok ⟨alts, ws, slopes, mapDx⟩
      else .error "altitudes and widths must have equal length"
  | _, _, _, _, _ => .error "provide either top, bottom and width, or altitudes and widths"

/-! ### Glacier -/

/-- Modelled from the spec: the scalar diagnostics `Glacier` records per
step — length, volume and area. -/
structure Diag where
  length : ℚ
  volume : ℚ
  area : ℚ
deriving DecidableEq

/-- Modelled from the spec: the physical state the external solver
evolves — the scalar diagnostics together with the ice-surface elevation
at each grid point of the flowline. -/
structure IceState where
  diag : Diag
  surface : List ℚ
deriving DecidableEq

/-- Modelled from the spec: `Glacier` is "a façade that owns a bed, a
mass-balance function, and delegates time evolution to the external
solver; records a history of scalar diagnostics (length, volume, area)
per step".  It also keeps its integer age and the temperature-bias series
consumed by `add_temperature_bias` / `add_random_climate`. -/
structure Glacier where
  bed : GlacierBed
  massBalance : MassBalance
  age : ℕ
  state : IceState
  biasSeries : List ℚ
  history : List (ℕ × Diag)
deriving DecidableEq

/-- Modelled from the spec: the `Glacier(bed, mass_balance)` constructor;
a fresh glacier has age 0, no ice and an empty history. -/
def mkGlacier (bed : GlacierBed) (mb : MassBalance) : Glacier :=
  { bed := bed, massBalance := mb, age := 0,
    state := ⟨⟨0, 0, 0⟩, bed.altitudes⟩, biasSeries := [], history := [] }

/-- Modelled from the spec: one simulated year.  The external solver
(`step`, not implemented in this repository) advances the physical state;
the façade increments the age and appends the new diagnostics to the
history. -/
def stepYear (step : IceState → IceState) (g : Glacier) : Glacier :=
  let s := step g.state
  { g with age := g.age + 1, state := s, history := g.history ++ [(g.age + 1, s.diag)] }

/-- Modelled from the spec: `n` consecutive simulated years. -/
def progressSteps (step : IceState → IceState) (g : Glacier) : ℕ → Glacier
  | 0 => g
  | n + 1 => progressSteps step (stepYear step g) n

/-- Modelled from the spec: `Glacier.progress_to_year(y)` advances the
glacier one year at a time until its age is `y`; when `y` does not lie in
the future of the glacier nothing happens — "the model will not go back
in time". -/
def progressToYear (step : IceState → IceState) (g : Glacier) (y : ℕ) : Glacier :=
  progressSteps step g (y - g.age)

/-- The diagnostics records appended by progressing `n` years. -/
def newRecords (step : IceState → IceState) (g : Glacier) : ℕ → List (ℕ × Diag)
  | 0 => []
  | n + 1 => (g.age + 1, (step g.state).diag) :: newRecords step (stepYear step g) n

/-- Width-weighted total of the annual mass balance over a surface
profile (altitudes paired with the corresponding bed widths). -/
def mbWeighted (mb : MassBalance) (widths surface : List ℚ) : ℚ :=
  (List.zipWith (fun w z => w * mb.eval z) widths surface).sum

/-- Modelled from the spec: the glacier's specific mass balance, "the
mass balance model to compute the annual mass balance and compute a width
weighted average over all altitudes". -/
def specificMassBalance (g : Glacier) : ℚ :=
  mbWeighted g.massBalance g.bed.widths g.state.surface / g.bed.widths.sum

/-- Modelled from the spec: `Glacier.progress_to_equilibrium()`.  The
glacier "reaches a balance with its climate" when "its length and volume
will no longer change"; the loop advances one year at a time until the
solver step leaves the volume unchanged, with explicit fuel standing for
the library's iteration cap. -/
def progressToEquilibrium (step : IceState → IceState) :
    ℕ → Glacier → Option Glacier
  | 0, _ => none
  | n + 1, g =>
      if (step g.state).diag.volume = g.state.diag.volume then some g
      else progressToEquilibrium step n (stepYear step g)

/-- Modelled from the spec: `.add_temperature_bias(bias, duration,
noise)` appends a linear temperature-bias trend of the given duration to
the glacier's bias series; the optional `noise` bounds the interannual
perturbations, whose draws come from the ambient random source `draws`. -/
def addTemperatureBias (draws : List ℚ) (g : Glacier) (bias : ℚ) (duration : ℕ)
    (noise : Option (ℚ × ℚ)) : Glacier :=
  let trend := (List.range duration).map
    (fun (i : ℕ) => bias * ((i : ℚ) + 1) / (duration : ℚ) +
      match noise with
      | none => 0
      | some (lo, hi) => max lo (min hi (draws.getD i 0)))
  { g with biasSeries := g.biasSeries ++ trend }

/-- Modelled from the spec: `.add_random_climate(duration,
temperature_range)` appends `duration` random bias values clamped to the
given range, the draws coming from the ambient random source `draws`. -/
def addRandomClimate (draws : List ℚ) (g : Glacier) (duration : ℕ)
    (tempRange : ℚ × ℚ) : Glacier :=
  { g with biasSeries := g.biasSeries ++
      (List.range duration).map (fun (i : ℕ) => max tempRange.1 (min tempRange.2 (draws.getD i 0))) }

/-! ### Surging glacier -/

/-- OGGM's default basal-sliding parameter, `5.7e-20`, as a rational. -/
def defaultBasalSliding : ℚ := 57 / 10 ^ 21

/-- Modelled from the spec: `SurgingGlacier` is "a `Glacier` subtype that
periodically multiplies a sliding parameter to emulate surge cycles",
with the added attributes `normal_years`, `surging_years`,
`basal_sliding` and `basal_sliding_surge`. -/
structure SurgingGlacier where
  glacier : Glacier
  normalYears : ℕ
  surgingYears : ℕ
  basalSliding : ℚ
  basalSlidingSurge : ℚ

/-- Modelled from the spec: the `SurgingGlacier(bed, mass_balance)`
constructor.  "By default these are set to 50 years of non-surging and 5
years of surging, with a basal sliding during a surge 10 times higher
than when not surging." -/
def mkSurgingGlacier (bed : GlacierBed) (mb : MassBalance) : SurgingGlacier :=
  { glacier := mkGlacier bed mb, normalYears := 50, surgingYears := 5,
    basalSliding := defaultBasalSliding,
    basalSlidingSurge := 10 * defaultBasalSliding }

/-- Modelled from the spec: the sliding parameter driving the solver in
year `yr`: the cycle is `normal_years` of normal flow followed by
`surging_years` of surging, repeated. -/
def SurgingGlacier.slidingAt (sg : SurgingGlacier) (yr : ℕ) : ℚ :=
  if yr % (sg.normalYears + sg.surgingYears) < sg.normalYears then
    sg.basalSliding
  else sg.basalSlidingSurge

/-- Modelled from the spec: one simulated year of a surging glacier; the
external solver step is driven with the sliding parameter of the current
year of the cycle. -/
def surgingStepYear (step : ℚ → IceState → IceState) (sg : SurgingGlacier) :
    SurgingGlacier :=
  { sg with glacier := stepYear (step (sg.slidingAt sg.glacier.age)) sg.glacier }

/-- Modelled from the spec: `n` consecutive simulated years of a surging
glacier. -/
def surgingProgressSteps (step : ℚ → IceState → IceState) (sg : SurgingGlacier) :
    ℕ → SurgingGlacier
  | 0 => sg
  | n + 1 => surgingProgressSteps step (surgingStepYear step sg) n

/-- Modelled from the spec: `SurgingGlacier.progress_to_year(y)`. -/
def SurgingGlacier.progressToYear (step : ℚ → IceState → IceState)
    (sg : SurgingGlacier) (y : ℕ) : SurgingGlacier :=
  surgingProgressSteps step sg (y - sg.glacier.age)

/-- Modelled from the spec: "it is not possible to progress a surging
glacier to equilibrium" — the inherited method always fails. -/
def SurgingGlacier.progressToEquilibrium (_sg : SurgingGlacier) :
    Except String SurgingGlacier :=
  .error "Not possible to progress a surging glacier to equilibrium."

/-! ### Glacier collection -/

/-- Modelled from the spec: `GlacierCollection` is "a convenience
container applying batch operations (attribute mutation, progression,
plotting) across multiple `Glacier` instances". -/
structure GlacierCollection where
  glaciers : List Glacier

/-- Modelled from the spec: `GlacierCollection.add` appends glaciers to
the collection. -/
def GlacierCollection.add (c : GlacierCollection) (gs : List Glacier) :
    GlacierCollection :=
  ⟨c.glaciers ++ gs⟩

/-- Modelled from the spec: `GlacierCollection.progress_to_year(y)`
progresses every member to year `y`. -/
def GlacierCollection.progressToYear (step : IceState → IceState)
    (c : GlacierCollection) (y : ℕ) : GlacierCollection :=
  ⟨c.glaciers.map (fun g => OggmEdu.progressToYear step g y)⟩

/-- Modelled from the spec: `GlacierCollection.change_attributes` applies
the i-th listed attribute change to the i-th glacier of the collection;
the changes are modelled as glacier-updating functions. -/
def GlacierCollection.changeAttributes (c : GlacierCollection)
    (fs : List (Glacier → Glacier)) : GlacierCollection :=
  ⟨List.zipWith (fun f g => f g) fs c.glaciers⟩

/-- Modelled from the spec: `GlacierCollection.plot_history` renders the
recorded histories of the members; as a pure value it is the list of
those histories. -/
def GlacierCollection.plotHistory (c : GlacierCollection) :
    List (List (ℕ × Diag)) :=
  c.glaciers.map Glacier.history

/-! ### Reference semantics of `fill` (Python object aliasing)

To state the frame property of `GlacierCollection.fill` we make the
Python heap explicit: a store of glacier objects indexed by `ℕ`
references, with the collection holding references into the store.
Mutating a member through the collection writes the cell its reference
points to. -/

/-- A heap of glacier objects: `cells i` is the object at reference `i`,
references below `size` are allocated. -/
structure Store where
  cells : ℕ → Glacier
  size : ℕ

/-- Write the store cell at reference `r`. -/
def Store.set (st : Store) (r : ℕ) (g : Glacier) : Store :=
  ⟨fun i => if i = r then g else st.cells i, st.size⟩

/-- Apply a list of in-place updates `(reference, update)` to the
store. -/
def updateStore (st : Store) : List (ℕ × (Glacier → Glacier)) → Store
  | [] => st
  | (r, f) :: rest => updateStore (st.set r (f (st.cells r))) rest

/-- Modelled from the spec: `GlacierCollection.fill(g, n)` fills the
collection with `n` copies of the glacier at reference `r`; ".fill copy
the initial glacier as well, hence it will remain unchanged" — every
stored member is a fresh copy, never the original object. -/
def fill (st : Store) (r : ℕ) (n : ℕ) : Store × List ℕ :=
  (⟨fun i => if st.size ≤ i ∧ i < st.size + n then st.cells r else st.cells i,
    st.size + n⟩,
   List.range' st.size n)

/-- In-place `change_attributes` on a collection of references: the i-th
change mutates the object the i-th reference points to. -/
def changeAttributesStore (st : Store) (refs : List ℕ)
    (fs : List (Glacier → Glacier)) : Store :=
  updateStore st (refs.zip fs)

/-- In-place `progress_to_year` on a collection of references: every
referenced object is progressed to year `y`. -/
def progressStore (step : IceState → IceState) (st : Store) (refs : List ℕ)
    (y : ℕ) : Store :=
  updateStore st (refs.map (fun r => (r, fun g => progressToYear step g y)))

/-! ### The exception-handling cells of the water-resources notebooks

These cells are present verbatim in the sources
(`glacier_water_resources.ipynb` and
`glacier_water_resources_projections.ipynb`): the construction of the
optional interactive map is wrapped in a bare `try:`/`except:` that binds
`out = None` on any error.  The cell is embedded as a function of the
outcome of the wrapped computation. -/

/-- Result of the cell: either the interactive map object (abstracted as
its description) or `None`. -/
def interactiveMapCell (r : Except String String) : Except String (Option String) :=
  match r with
  | .ok out => .ok (some out)
  | .error _ => .ok none

/-- Whether an `Except` result is a success. -/
def exceptOk {ε α : Type} : Except ε α → Bool
  | .ok _ => true
  | .error _ => false

/-! ### Helper lemmas -/

theorem progressSteps_age (step : IceState → IceState) (g : Glacier) (n : ℕ) :
    (progressSteps step g n).age = g.age + n := by
  induction n generalizing g with
  | zero => rfl
  | succ n ih => simp [progressSteps, ih, stepYear]; omega

theorem progressSteps_history (step : IceState → IceState) (g : Glacier) (n : ℕ) :
    (progressSteps step g n).history = g.history ++ newRecords step g n := by
  induction n generalizing g with
  | zero => simp [progressSteps, newRecords]
  | succ n ih =>
    simp only [progressSteps, newRecords, ih, stepYear, List.append_assoc,
      List.singleton_append]

theorem newRecords_years (step : IceState → IceState) (g : Glacier) (n : ℕ) :
    (newRecords step g n).map Prod.fst = List.range' (g.age + 1) n := by
  induction n generalizing g with
  | zero => simp [newRecords]
  | succ n ih => simp [newRecords, List.range'_succ, ih, stepYear]

theorem progressSteps_bed (step : IceState → IceState) (g : Glacier) (n : ℕ) :
    (progressSteps step g n).bed = g.bed ∧
      (progressSteps step g n).massBalance = g.massBalance := by
  induction n generalizing g with
  | zero => exact ⟨rfl, rfl⟩
  | succ n ih => simpa [progressSteps, stepYear] using ih (stepYear step g)

theorem progressToEquilibrium_fix (step : IceState → IceState) (fuel : ℕ)
    (g g' : Glacier) (h : progressToEquilibrium step fuel g = some g') :
    (step g'.state).diag.volume = g'.state.diag.volume ∧
      g'.bed = g.bed ∧ g'.massBalance = g.massBalance := by
  induction fuel generalizing g with
  | zero => simp [progressToEquilibrium] at h
  | succ fuel ih =>
    by_cases hv : (step g.state).diag.volume = g.state.diag.volume
    · simp only [progressToEquilibrium, if_pos hv, Option.some.injEq] at h
      subst h; exact ⟨hv, rfl, rfl⟩
    · simp only [progressToEquilibrium, if_neg hv] at h
      rcases ih (stepYear step g) h with ⟨h1, h2, h3⟩
      exact ⟨h1, by simpa [stepYear] using h2, by simpa [stepYear] using h3⟩

theorem zip_fst_mem {α β : Type} (p : α × β) :
    ∀ (l₁ : List α) (l₂ : List β), p ∈ l₁.zip l₂ → p.1 ∈ l₁ := by
  intro l₁
  induction l₁ with
  | nil => intro l₂ h; simp [List.zip] at h
  | cons a l ih =>
    intro l₂ h
    cases l₂ with
    | nil => simp [List.zip] at h
    | cons b l' =>
      rcases List.mem_cons.mp h with h | h
      · subst h; simp
      · exact List.mem_cons.mpr (Or.inr (ih l' h))

theorem updateStore_cells_of_ne (r : ℕ) :
    ∀ (l : List (ℕ × (Glacier → Glacier))) (st : Store),
      (∀ p ∈ l, p.1 ≠ r) → (updateStore st l).cells r = st.cells r := by
  intro l
  induction l with
  | nil => intro st _; rfl
  | cons p rest ih =>
    intro st h
    have hp : p.1 ≠ r := h p (by simp)
    have hrest : ∀ q ∈ rest, q.1 ≠ r := fun q hq => h q (by simp [hq])
    simp only [updateStore, ih _ hrest, Store.set]
    exact if_neg (fun hc => hp hc.symm)

theorem zipWith_apply_get {α : Type} :
    ∀ (fs : List (α → α)) (gs : List α) (i : ℕ) (f : α → α) (g : α),
      fs[i]? = some f → gs[i]? = some g →
      (List.zipWith (fun f g => f g) fs gs)[i]? = some (f g) := by
  intro fs
  induction fs with
  | nil => intro gs i f g h; simp at h
  | cons f0 fs ih =>
    intro gs i f g hf hg
    cases gs with
    | nil => simp at hg
    | cons g0 gs =>
      cases i with
      | zero =>
        simp only [List.getElem?_cons_zero, Option.some.injEq] at hf hg
        subst hf; subst hg
        simp [List.zipWith_cons_cons]
      | succ i =>
        simp only [List.getElem?_cons_succ, List.zipWith_cons_cons] at hf hg ⊢
        exact ih gs i f g hf hg

/-! ### Concrete fixtures (values appearing in the notebooks) -/

/-- The bed of the "Ice on an incline" notebook: top 3400 m, bottom
1500 m, constant width 300 m, slope 10 degrees, 100 m grid. -/
def bedC : GlacierBed := ⟨[3400, 1500], [300, 300], [10], 100⟩

/-- The linear mass balance of the "Ice on an incline" notebook: ELA
3000 m, gradient 4 mm/m. -/
def mbC : MassBalance := ⟨3000, [4], []⟩

/-- The external solver step abstracted as the identity (no ice-state
change). -/
def stepId : IceState → IceState := fun s => s

/-- A glacier already progressed to year 500, as in the "Ice on an
incline" notebook before the `progress_to_year(450)` cell. -/
def glacierOld : Glacier :=
  { bed := bedC, massBalance := mbC, age := 500,
    state := ⟨⟨4000, 2, 6⟩, [3400, 1500]⟩, biasSeries := [], history := [] }

/-! ### C1 -/

/-- C1: evaluating a `MassBalance` with an ELA and a single gradient
gives the linear value `(z - ela) * gradient`; with a gradient list and
breakpoints it gives the piecewise-linear function of elevation that is
zero at the ELA and has slope `gradAt` on each linear piece. -/
theorem massBalance_eval_spec :
    (∀ (ela g z : ℚ), (MassBalance.mk ela [g] []).eval z = (z - ela) * g)
    ∧ (∀ (ela : ℚ) (gs bps : List ℚ), (MassBalance.mk ela gs bps).eval ela = 0)
    ∧ (∀ (ela : ℚ) (gs bps : List ℚ) (z z' : ℚ), SameSegment bps z z' →
        (MassBalance.mk ela gs bps).eval z - (MassBalance.mk ela gs bps).eval z'
          = gradAt gs bps z * (z - z')) := by
  refine ⟨?_, ?_, ?_⟩
  · intro ela g z
    simp [MassBalance.eval, mbProfile]
    ring
  · intro ela gs bps
    simp [MassBalance.eval]
  · intro ela gs bps z z' h
    have := mbProfile_sub_of_sameSegment gs bps z z' h
    simp only [MassBalance.eval]
    linarith

/-- Witness for C1 at concrete notebook inputs: the linear mass balance
`MassBalance(3000, gradient=4)` at 3100 m, and the piecewise one
`MassBalance(ela=3600, gradient=[3,6,10,15], breakpoints=[3800,3200,2500])`
at the ELA and on the segment between 3800 m and 3200 m. -/
theorem massBalance_eval_spec_witness :
    ((MassBalance.mk 3000 [4] []).eval 3100 = (3100 - 3000) * 4)
    ∧ ((MassBalance.mk 3600 [3, 6, 10, 15] [3800, 3200, 2500]).eval 3600 = 0)
    ∧ (SameSegment [3800, 3200, 2500] 3500 3300
        ∧ (MassBalance.mk 3600 [3, 6, 10, 15] [3800, 3200, 2500]).eval 3500
            - (MassBalance.mk 3600 [3, 6, 10, 15] [3800, 3200, 2500]).eval 3300
          = gradAt [3, 6, 10, 15] [3800, 3200, 2500] 3500 * (3500 - 3300)) :=
  ⟨massBalance_eval_spec.1 3000 4 3100,
   massBalance_eval_spec.2.1 3600 [3, 6, 10, 15] [3800, 3200, 2500],
   by decide,
   massBalance_eval_spec.2.2 3600 [3, 6, 10, 15] [3800, 3200, 2500] 3500 3300
     (by decide)⟩

/-! ### C2 -/

/-- C2: `progress_to_year(y)` with `y` not beyond the current age leaves
the glacier entirely unchanged (age, diagnostics, history — the whole
state), and the age after any `progress_to_year` call is
`max age y`, so the age never decreases across any sequence of
progressions. -/
theorem progressToYear_monotone (step : IceState → IceState) (g : Glacier) (y : ℕ) :
    (y ≤ g.age → progressToYear step g y = g)
    ∧ (progressToYear step g y).age = max g.age y := by
  constructor
  · intro h
    simp [progressToYear, Nat.sub_eq_zero_of_le h, progressSteps]
  · rw [progressToYear, progressSteps_age]
    omega

/-- Witness for C2: the notebook's `progress_to_year(450)` on a glacier
already at year 500 leaves it unchanged, and its age stays 500. -/
theorem progressToYear_monotone_witness :
    (450 ≤ glacierOld.age ∧ progressToYear stepId glacierOld 450 = glacierOld)
    ∧ (progressToYear stepId glacierOld 450).age = max glacierOld.age 450 :=
  ⟨⟨by decide, (progressToYear_monotone stepId glacierOld 450).1 (by decide)⟩,
   (progressToYear_monotone stepId glacierOld 450).2⟩

/-! ### C3 -/

/-- C3: a `SurgingGlacier` is built with the defaults `normal_years = 50`,
`surging_years = 5` and `basal_sliding_surge = 10 * basal_sliding`; the
years follow the fixed periodic cycle of `normal_years` of normal flow
followed by `surging_years` of surging (the sliding schedule has period
`normal_years + surging_years`), every normal year drives the solver step
with `basal_sliding` and every surging year with `basal_sliding_surge`. -/
theorem surgingGlacier_cycle :
    (∀ (bed : GlacierBed) (mb : MassBalance),
        (mkSurgingGlacier bed mb).normalYears = 50
        ∧ (mkSurgingGlacier bed mb).surgingYears = 5
        ∧ (mkSurgingGlacier bed mb).basalSlidingSurge
            = 10 * (mkSurgingGlacier bed mb).basalSliding)
    ∧ (∀ (sg : SurgingGlacier) (yr : ℕ),
        sg.slidingAt (yr + (sg.normalYears + sg.surgingYears)) = sg.slidingAt yr)
    ∧ (∀ (sg : SurgingGlacier) (yr : ℕ),
        yr % (sg.normalYears + sg.surgingYears) < sg.normalYears →
          sg.slidingAt yr = sg.basalSliding)
    ∧ (∀ (sg : SurgingGlacier) (yr : ℕ),
        sg.normalYears ≤ yr % (sg.normalYears + sg.surgingYears) →
          sg.slidingAt yr = sg.basalSlidingSurge)
    ∧ (∀ (step : ℚ → IceState → IceState) (sg : SurgingGlacier),
        (surgingStepYear step sg).glacier
          = stepYear (step (sg.slidingAt sg.glacier.age)) sg.glacier) := by
  refine ⟨fun bed mb => ⟨rfl, rfl, rfl⟩, ?_, ?_, ?_, fun step sg => rfl⟩
  · intro sg yr
    simp [SurgingGlacier.slidingAt, Nat.add_mod_right]
  · intro sg yr h
    simp [SurgingGlacier.slidingAt, if_pos h]
  · intro sg yr h
    simp [SurgingGlacier.slidingAt, Nat.not_lt.mpr h]

/-- Witness for C3 on the surging-glacier notebook's setting: with the
default cycle (50 + 5 years), year 49 is a normal year driven with
`basal_sliding`, year 52 is a surging year driven with
`basal_sliding_surge`, and the schedule repeats after 55 years. -/
theorem surgingGlacier_cycle_witness :
    ((mkSurgingGlacier bedC mbC).normalYears = 50
      ∧ (mkSurgingGlacier bedC mbC).surgingYears = 5
      ∧ (mkSurgingGlacier bedC mbC).basalSlidingSurge
          = 10 * (mkSurgingGlacier bedC mbC).basalSliding)
    ∧ (mkSurgingGlacier bedC mbC).slidingAt (49 + 55)
        = (mkSurgingGlacier bedC mbC).slidingAt 49
    ∧ (49 % 55 < 50
        ∧ (mkSurgingGlacier bedC mbC).slidingAt 49
            = (mkSurgingGlacier bedC mbC).basalSliding)
    ∧ (50 ≤ 52 % 55
        ∧ (mkSurgingGlacier bedC mbC).slidingAt 52
            = (mkSurgingGlacier bedC mbC).basalSlidingSurge) :=
  ⟨surgingGlacier_cycle.1 bedC mbC,
   surgingGlacier_cycle.2.1 (mkSurgingGlacier bedC mbC) 49,
   ⟨by decide, surgingGlacier_cycle.2.2.1 (mkSurgingGlacier bedC mbC) 49 (by decide)⟩,
   ⟨by decide, surgingGlacier_cycle.2.2.2.1 (mkSurgingGlacier bedC mbC) 52 (by decide)⟩⟩

/-! ### C4 -/

/-- C4 counterexample: a collection holding a glacier of age 500 (as
produced by the "Ice on an incline" notebook) progressed with
`collection.progress_to_year(400)` does not leave all members at age
400 — the older glacier keeps age 500, because a glacier never evolves
backwards in time. -/
theorem collection_progress_age_counterexample :
    ((GlacierCollection.mk [glacierOld]).progressToYear stepId 400).glaciers.map
        Glacier.age ≠ [400] := by
  decide

/-- C4 (amended): each batch operation of `GlacierCollection` equals
applying the per-glacier operation to every member —
`collection.progress_to_year(y)` progresses every glacier to year `y`
(so, provided no member is already older than `y`, afterwards all
members have age `y`), and `collection.change_attributes` applies the
i-th listed change to the i-th glacier. -/
theorem collection_batch_ops (step : IceState → IceState)
    (c : GlacierCollection) (y : ℕ) (fs : List (Glacier → Glacier)) :
    ((c.progressToYear step y).glaciers
        = c.glaciers.map (fun g => progressToYear step g y))
    ∧ ((∀ g ∈ c.glaciers, g.age ≤ y) →
        ∀ g' ∈ (c.progressToYear step y).glaciers, g'.age = y)
    ∧ (∀ (i : ℕ) (f : Glacier → Glacier) (g : Glacier),
        fs[i]? = some f → c.glaciers[i]? = some g →
          (c.changeAttributes fs).glaciers[i]? = some (f g)) := by
  refine ⟨rfl, ?_, ?_⟩
  · intro h g' hg'
    simp only [GlacierCollection.progressToYear, List.mem_map] at hg'
    rcases hg' with ⟨g, hg, rfl⟩
    rw [progressToYear, progressSteps_age]
    have := h g hg
    omega
  · intro i f g hf hg
    exact zipWith_apply_get fs c.glaciers i f g hf hg

/-- Witness for C4 on the surging-glaciers notebook setting: two fresh
glaciers progressed together to year 400 both reach age 400, and a
`change_attributes` with two listed changes applies the first change to
the first member. -/
theorem collection_batch_ops_witness :
    (((GlacierCollection.mk [mkGlacier bedC mbC, mkGlacier bedC mbC]).progressToYear
          stepId 400).glaciers
        = [mkGlacier bedC mbC, mkGlacier bedC mbC].map
            (fun g => progressToYear stepId g 400))
    ∧ ((∀ g ∈ [mkGlacier bedC mbC, mkGlacier bedC mbC], g.age ≤ 400)
        ∧ ∀ g' ∈ ((GlacierCollection.mk [mkGlacier bedC mbC, mkGlacier bedC mbC]).progressToYear
            stepId 400).glaciers, g'.age = 400)
    ∧ (([fun g => { g with age := g.age + 7 }, fun g => g] :
          List (Glacier → Glacier))[0]? = some (fun g => { g with age := g.age + 7 })
        ∧ ([mkGlacier bedC mbC, glacierOld] : List Glacier)[0]? = some (mkGlacier bedC mbC)
        ∧ ((GlacierCollection.mk [mkGlacier bedC mbC, glacierOld]).changeAttributes
            [fun g => { g with age := g.age + 7 }, fun g => g]).glaciers[0]?
          = some { mkGlacier bedC mbC with age := (mkGlacier bedC mbC).age + 7 }) :=
  ⟨(collection_batch_ops stepId
      (GlacierCollection.mk [mkGlacier bedC mbC, mkGlacier bedC mbC]) 400 []).1,
   ⟨by decide,
    (collection_batch_ops stepId
      (GlacierCollection.mk [mkGlacier bedC mbC, mkGlacier bedC mbC]) 400 []).2.1
      (by decide)⟩,
   ⟨rfl, rfl,
    (collection_batch_ops stepId (GlacierCollection.mk [mkGlacier bedC mbC, glacierOld])
        400 [fun g => { g with age := g.age + 7 }, fun g => g]).2.2 0
      (fun g => { g with age := g.age + 7 }) (mkGlacier bedC mbC) rfl rfl⟩⟩

/-! ### C5 -/

/-- C5: progressing a glacier of age `a` to a later year `y` appends to
the history one record of the scalar diagnostics (length, volume, area)
per simulated yearly step; the recorded years of the new part are exactly
`a + 1, …, y`, so every year between the previous age and `y` has a
record in the history. -/
theorem progressToYear_history (step : IceState → IceState) (g : Glacier) (y : ℕ)
    (h : g.age < y) :
    ((progressToYear step g y).history
        = g.history ++ newRecords step g (y - g.age))
    ∧ ((newRecords step g (y - g.age)).map Prod.fst
        = List.range' (g.age + 1) (y - g.age))
    ∧ (∀ t : ℕ, g.age < t → t ≤ y →
        t ∈ (progressToYear step g y).history.map Prod.fst) := by
  refine ⟨progressSteps_history step g (y - g.age),
    newRecords_years step g (y - g.age), ?_⟩
  intro t ht hty
  rw [progressToYear, progressSteps_history, List.map_append, newRecords_years]
  refine List.mem_append.mpr (Or.inr ?_)
  rw [List.mem_range'_1]
  omega

/-- Witness for C5: a fresh glacier progressed to year 3 records the
years 1, 2, 3, and in particular year 2 appears in the history. -/
theorem progressToYear_history_witness :
    ((mkGlacier bedC mbC).age < 3
      ∧ (progressToYear stepId (mkGlacier bedC mbC) 3).history
          = (mkGlacier bedC mbC).history
              ++ newRecords stepId (mkGlacier bedC mbC) (3 - (mkGlacier bedC mbC).age))
    ∧ (newRecords stepId (mkGlacier bedC mbC) (3 - (mkGlacier bedC mbC).age)).map
        Prod.fst = List.range' ((mkGlacier bedC mbC).age + 1)
          (3 - (mkGlacier bedC mbC).age)
    ∧ ((mkGlacier bedC mbC).age < 2 ∧ 2 ≤ 3
        ∧ 2 ∈ (progressToYear stepId (mkGlacier bedC mbC) 3).history.map Prod.fst) :=
  ⟨⟨by decide,
    (progressToYear_history stepId (mkGlacier bedC mbC) 3 (by decide)).1⟩,
   (progressToYear_history stepId (mkGlacier bedC mbC) 3 (by decide)).2.1,
   ⟨by decide, by decide,
    (progressToYear_history stepId (mkGlacier bedC mbC) 3 (by decide)).2.2 2
      (by decide) (by decide)⟩⟩

/-! ### C6 -/

/-- C6: if the external solver conserves mass — each yearly step changes
the volume by the width-weighted average of the annual mass balance over
the glacier surface times the area — then whenever
`progress_to_equilibrium()` returns, the returned glacier's specific
mass balance is zero (the mass balance integrates to zero at
equilibrium), provided the glacier has nonzero area. -/
theorem progressToEquilibrium_specificMassBalance
    (step : IceState → IceState) (bed : GlacierBed) (mb : MassBalance)
    (hcons : ∀ s : IceState,
      (step s).diag.volume
        = s.diag.volume + (mbWeighted mb bed.widths s.surface / bed.widths.sum) * s.diag.area)
    (fuel : ℕ) (g g' : Glacier) (hbed : g.bed = bed) (hmb : g.massBalance = mb)
    (heq : progressToEquilibrium step fuel g = some g')
    (harea : g'.state.diag.area ≠ 0) :
    specificMassBalance g' = 0 := by
  rcases progressToEquilibrium_fix step fuel g g' heq with ⟨hfix, hbed', hmb'⟩
  have hzero :
      (mbWeighted mb bed.widths g'.state.surface / bed.widths.sum)
        * g'.state.diag.area = 0 := by
    have := hcons g'.state
    rw [hfix] at this
    linarith
  have hsmb : mbWeighted mb bed.widths g'.state.surface / bed.widths.sum = 0 :=
    (mul_eq_zero.mp hzero).resolve_right harea
  rw [specificMassBalance, hbed', hmb', hbed, hmb]
  exact hsmb

/-- The mass balance of the C6 witness: the linear profile of the
accumulation-and-ablation notebook. -/
def mbW : MassBalance := ⟨3000, [4], []⟩

/-- The bed of the C6 witness: two grid points of width 300 m whose ice
surface sits symmetrically around the ELA. -/
def bedW : GlacierBed := ⟨[3150, 2950], [300, 300], [10], 100⟩

/-- The glacier of the C6 witness: surface points at 3100 m and 2900 m,
50 m of specific width each side of the ELA, nonzero volume and area. -/
def gW : Glacier :=
  { bed := bedW, massBalance := mbW, age := 0,
    state := ⟨⟨4000, 5, 6⟩, [3100, 2900]⟩, biasSeries := [], history := [] }

/-- The mass-conserving solver step of the C6 witness: it adds the
width-weighted specific mass balance times the area to the volume. -/
def stepW : IceState → IceState := fun s =>
  ⟨⟨s.diag.length,
    s.diag.volume + (mbWeighted mbW bedW.widths s.surface / bedW.widths.sum) * s.diag.area,
    s.diag.area⟩, s.surface⟩

/-- Witness for C6: on a glacier whose surface is symmetric about the
ELA the mass-conserving step leaves the volume unchanged, so
`progress_to_equilibrium` returns it at once, its area is nonzero, and
its specific mass balance is zero. -/
theorem progressToEquilibrium_specificMassBalance_witness :
    (progressToEquilibrium stepW 1 gW = some gW
      ∧ gW.state.diag.area ≠ 0)
    ∧ specificMassBalance gW = 0 :=
  have hv : (stepW gW.state).diag.volume = gW.state.diag.volume := by
    norm_num [stepW, gW, mbWeighted, bedW, mbW, MassBalance.eval, mbProfile]
  have h : progressToEquilibrium stepW 1 gW = some gW := by
    simp [progressToEquilibrium, hv]
  have ha : gW.state.diag.area ≠ 0 := by norm_num [gW]
  ⟨⟨h, ha⟩,
   progressToEquilibrium_specificMassBalance stepW bedW mbW (fun s => rfl) 1 gW gW
     rfl rfl h ha⟩

/-! ### C7 -/

/-- C7: `progress_to_equilibrium`, though part of the `Glacier` API that
`SurgingGlacier` inherits, always fails on a surging glacier: for every
surging glacier the call returns an error instead of progressing. -/
theorem surgingGlacier_no_equilibrium (sg : SurgingGlacier) :
    sg.progressToEquilibrium
      = Except.error "Not possible to progress a surging glacier to equilibrium."
    ∧ exceptOk sg.progressToEquilibrium = false :=
  ⟨rfl, rfl⟩

/-! ### C8 -/

/-- C8: `GlacierCollection.fill(g, n)` stores `n` fresh copies of the
glacier at reference `r` (the original is copied as well, never aliased),
so a subsequent `change_attributes` or `progress_to_year` on the
collection leaves the original object `g` unchanged in the store. -/
theorem fill_frame (st : Store) (r n : ℕ) (fs : List (Glacier → Glacier))
    (step : IceState → IceState) (y : ℕ) (hr : r < st.size) :
    ((fill st r n).1.cells r = st.cells r)
    ∧ ((changeAttributesStore (fill st r n).1 (fill st r n).2 fs).cells r
        = st.cells r)
    ∧ ((progressStore step (fill st r n).1 (fill st r n).2 y).cells r
        = st.cells r) := by
  have hfill : (fill st r n).1.cells r = st.cells r := by
    simp only [fill]
    exact if_neg (by omega)
  have hrefs : ∀ a ∈ (fill st r n).2, a ≠ r := by
    intro a ha
    simp only [fill, List.mem_range'_1] at ha
    omega
  refine ⟨hfill, ?_, ?_⟩
  · rw [changeAttributesStore, updateStore_cells_of_ne, hfill]
    intro p hp
    exact hrefs p.1 (zip_fst_mem p _ _ hp)
  · rw [progressStore, updateStore_cells_of_ne, hfill]
    intro p hp
    simp only [List.mem_map] at hp
    rcases hp with ⟨a, ha, rfl⟩
    exact hrefs a ha

/-- Witness for C8: a store holding the year-500 glacier at reference 0;
after `fill` with 3 copies and a `change_attributes` and a
`progress_to_year(600)` on the resulting collection, the original object
is untouched. -/
theorem fill_frame_witness :
    (0 < (Store.mk (fun _ => glacierOld) 1).size
      ∧ (changeAttributesStore
            (fill (Store.mk (fun _ => glacierOld) 1) 0 3).1
            (fill (Store.mk (fun _ => glacierOld) 1) 0 3).2
            [fun g => { g with age := 999 }]).cells 0
          = glacierOld)
    ∧ (progressStore stepId (fill (Store.mk (fun _ => glacierOld) 1) 0 3).1
          (fill (Store.mk (fun _ => glacierOld) 1) 0 3).2 600).cells 0
        = glacierOld :=
  ⟨⟨by decide,
    (fill_frame (Store.mk (fun _ => glacierOld) 1) 0 3
        [fun g => { g with age := 999 }] stepId 600 (by decide)).2.1⟩,
   (fill_frame (Store.mk (fun _ => glacierOld) 1) 0 3
        [fun g => { g with age := 999 }] stepId 600 (by decide)).2.2⟩

/-! ### C9 -/

/-- C9: the convenience API accepts the listed call shapes — a
`GlacierBed` from `top`, `bottom`, `width` and `slopes` or from
`altitudes` and `widths` lists (both notebook calls succeed); a
`MassBalance` from `ela` and `gradient`, optionally with `breakpoints`;
a `Glacier` from `bed` and `mass_balance`; and `progress_to_year(y)`,
`progress_to_equilibrium()`, `add_temperature_bias(bias, duration,
noise)`, `add_random_climate(duration, temperature_range)` and
`GlacierCollection.add` / `.fill` / `.change_attributes` /
`.progress_to_year` / `.plot_history` all evaluate on those
arguments. -/
theorem api_surface :
    exceptOk (mkGlacierBed (some 3400) (some 1500) (some 300) [10] none none 100) = true
    ∧ exceptOk (mkGlacierBed none none none [15]
        (some [4200, 3400, 2000]) (some [600, 400, 400]) 100) = true
    ∧ (MassBalance.mk 3000 [4] []).eval 2900 = -400
    ∧ (MassBalance.mk 3600 [3, 6, 10, 15] [3800, 3200, 2500]).eval 3600 = 0
    ∧ (mkGlacier bedC mbC).age = 0
    ∧ (progressToYear stepId (mkGlacier bedC mbC) 150).age = 150
    ∧ (progressToEquilibrium stepId 1 (mkGlacier bedC mbC)).isSome = true
    ∧ (addTemperatureBias [] (mkGlacier bedC mbC) (3 / 2) 200 none).biasSeries.length = 200
    ∧ (addTemperatureBias [] (mkGlacier bedC mbC) 2 500 (some (-2, 2))).biasSeries.length = 500
    ∧ (addRandomClimate [] (mkGlacier bedC mbC) 1000 (-2, 2)).biasSeries.length = 1000
    ∧ ((GlacierCollection.mk []).add [mkGlacier bedC mbC, glacierOld]).glaciers.length = 2
    ∧ (fill (Store.mk (fun _ => glacierOld) 1) 0 3).2.length = 3
    ∧ ((GlacierCollection.mk [mkGlacier bedC mbC]).changeAttributes
        [fun g => g]).glaciers.length = 1
    ∧ ((GlacierCollection.mk [mkGlacier bedC mbC]).progressToYear stepId 600).glaciers.map
        Glacier.age = [600]
    ∧ (GlacierCollection.mk [mkGlacier bedC mbC]).plotHistory = [[]] := by
  refine ⟨rfl, rfl, ?_, ?_, rfl, ?_, rfl, ?_, ?_, ?_, rfl, rfl, rfl, ?_, rfl⟩
  · norm_num [MassBalance.eval, mbProfile]
  · norm_num [MassBalance.eval]
  · rw [progressToYear, progressSteps_age]; rfl
  · simp only [addTemperatureBias, mkGlacier, List.nil_append, List.length_map,
      List.length_range]
  · simp only [addTemperatureBias, mkGlacier, List.nil_append, List.length_map,
      List.length_range]
  · simp only [addRandomClimate, mkGlacier, List.nil_append, List.length_map,
      List.length_range]
  · show [(progressToYear stepId (mkGlacier bedC mbC) 600).age] = [600]
    rw [progressToYear, progressSteps_age]
    rfl

/-! ### C10 -/

/-- C10 counterexample: the interactive-map cell of the water-resources
notebooks does not propagate an error of the wrapped library computation:
fed a `ModuleNotFoundError`, the cell returns the normal value `None`
instead of re-raising, because its bare `except:` swallows every
exception. -/
theorem interactiveMapCell_counterexample :
    interactiveMapCell (Except.error "ModuleNotFoundError: holoviews") = Except.ok none
    ∧ interactiveMapCell (Except.error "ModuleNotFoundError: holoviews")
        ≠ Except.error "ModuleNotFoundError: holoviews" :=
  ⟨rfl, by simp [interactiveMapCell]⟩

/-- C10 (amended): the only exception handling defined in this
repository is the bare `try`/`except` around the optional interactive-map
setup of the two water-resources notebooks; that cell never re-raises and
performs no retry — a successful map is kept and any error is replaced by
the fallback value `None` — while all other notebook operations are plain
library calls with no handler. -/
theorem interactiveMapCell_fallback (r : Except String String) :
    exceptOk (interactiveMapCell r) = true
    ∧ (∀ out : String, r = Except.ok out → interactiveMapCell r = Except.ok (some out))
    ∧ (∀ e : String, r = Except.error e → interactiveMapCell r = Except.ok none) := by
  refine ⟨?_, ?_, ?_⟩
  · cases r with
    | ok out => rfl
    | error e => rfl
  · intro out h; subst h; rfl
  · intro e h; subst h; rfl

/-- Witness for C10's amended statement: a successful map value is kept
and a network failure is replaced by `None`. -/
theorem interactiveMapCell_fallback_witness :
    (exceptOk (interactiveMapCell (Except.ok "map")) = true
      ∧ ((Except.ok "map" : Except String String) = Except.ok "map"
          ∧ interactiveMapCell (Except.ok "map") = Except.ok (some "map")))
    ∧ (exceptOk (interactiveMapCell (Except.error "ConnectionError")) = true
        ∧ interactiveMapCell (Except.error "ConnectionError") = Except.ok none) :=
  ⟨⟨(interactiveMapCell_fallback (Except.ok "map")).1,
    ⟨rfl, (interactiveMapCell_fallback (Except.ok "map")).2.1 "map" rfl⟩⟩,
   ⟨(interactiveMapCell_fallback (Except.error "ConnectionError")).1,
    (interactiveMapCell_fallback (Except.error "ConnectionError")).2.2
      "ConnectionError" rfl⟩⟩

end OggmEdu
